import Mathlib

/-!
Shallow embedding of the analytics/ML components of mindburn-aletheia:
  * `infrastructure/src/analytics/ml/anomaly_detector.py` — threshold anomaly
    detector (`_detect_anomalies`) and its Lambda handler;
  * `src/analytics/ml/anomaly_detector.py` — model-based (IsolationForest)
    anomaly detector (`AnomalyDetector`, `train_anomaly_detector`, handler);
  * `src/analytics/ml/task_router.py` — task router (`TaskRouter`).

Numeric values are modelled as `ℚ` (Python ints/floats of the data and the
descriptive statistics), with `ℝ` only for quantities whose computation
involves a square root (standard deviations / standardized features).
Pandas NaN propagation is modelled explicitly where it matters
(`Option` for the sample standard deviation, comparisons with NaN are false).
Fallible operations return `Except String`.
-/

/-! ## Threshold anomaly detector (infrastructure/src/analytics/ml/anomaly_detector.py) -/

/-- One verification metric record, the element type of `metrics_data`
(the dict produced per record in `_load_recent_metrics`). -/
structure ThreshRecord where
  task_id : String
  worker_id : String
  content_type : String
  verification_method : String
  confidence_score : ℚ
  response_time_ms : ℚ
  is_accurate : Bool
  timestamp : ℚ
  deriving DecidableEq, Repr

/-- Pandas `Series.mean` over a nonempty column (the code only takes means of
nonempty frames; on `[]` this returns `0`, a value the embedding never uses). -/
def qMean (xs : List ℚ) : ℚ := xs.sum / (xs.length : ℚ)

/-- Pandas `Series.std()` (ddof=1) squared: the sample variance.  For a
single-element (or empty) column pandas yields NaN; modelled as `none`. -/
def sampleVarQ (xs : List ℚ) : Option ℚ :=
  if xs.length ≤ 1 then none
  else some ((xs.map (fun x => (x - qMean xs) ^ 2)).sum / ((xs.length - 1 : ℕ) : ℚ))

/-- `threshold_map.get(sensitivity.lower(), 2.5)` in `_detect_anomalies`. -/
def sigmaThreshold (sensitivity : String) : ℚ :=
  if sensitivity.toLower = "low" then 3
  else if sensitivity.toLower = "medium" then 5/2
  else if sensitivity.toLower = "high" then 2
  else 5/2

/-- `sensitivity_map.get(sensitivity.lower(), 12)` in `_get_lookback_hours`. -/
def lookbackHours (sensitivity : String) : ℕ :=
  if sensitivity.toLower = "low" then 24
  else if sensitivity.toLower = "medium" then 12
  else if sensitivity.toLower = "high" then 4
  else 12

/-- The `response_time_ms` column of the frame. -/
def rtValues (records : List ThreshRecord) : List ℚ :=
  records.map (·.response_time_ms)

open Classical in
/-- `df[df['response_time_ms'] > upper_threshold]` where
`upper_threshold = mean + sigma * std`.  When the sample standard deviation is
NaN (single-record batch) every comparison with it is false, so no record is
selected. -/
noncomputable def responseTimeFlagged (records : List ThreshRecord) (sigma : ℚ) :
    List ThreshRecord :=
  match sampleVarQ (rtValues records) with
  | none => []
  | some v =>
      records.filter (fun r =>
        decide ((r.response_time_ms : ℝ) >
          (qMean (rtValues records) : ℝ) + (sigma : ℝ) * Real.sqrt (v : ℝ)))

/-- Severity strings used by the detector. -/
inductive Severity | MEDIUM | HIGH
  deriving DecidableEq, Repr

/-- The `type` field of an anomaly dict. -/
inductive AnomalyType | HIGH_RESPONSE_TIME | LOW_ACCURACY | CONTENT_TYPE_LOW_ACCURACY
  deriving DecidableEq, Repr

/-- An anomaly dict as built by `_detect_anomalies`.  The formatted `message`
strings are elided; the structured fields each anomaly type carries are kept
(`none` where the Python dict has no such key). -/
structure Anomaly where
  type : AnomalyType
  severity : Severity
  contentType : Option String
  count : Option ℕ
  value : Option ℚ
  affectedWorkers : Option ℕ
  deriving DecidableEq, Repr

/-- `df['is_accurate'].mean()` — accuracy as a 0/1 mean. -/
def accuracyRate (records : List ThreshRecord) : ℚ :=
  qMean (records.map (fun r => if r.is_accurate then 1 else 0))

/-- The distinct content types of the batch: the group keys of
`df.groupby('content_type')` (pandas iterates groups in sorted key order;
only the set of keys matters for the stated properties, so first-occurrence
order is used). -/
def contentTypes (records : List ThreshRecord) : List String :=
  (records.map (·.content_type)).dedup

/-- The rows of one `content_type` group. -/
def groupRecords (records : List ThreshRecord) (ct : String) : List ThreshRecord :=
  records.filter (fun r => r.content_type = ct)

/-- The per-content-type accuracy check of `_detect_anomalies`: for each group,
`if stats['count'] >= 10 and stats['is_accurate'] < 0.7` emit a
`CONTENT_TYPE_LOW_ACCURACY` anomaly with severity
`HIGH if stats['is_accurate'] < 0.5 else MEDIUM`. -/
def contentTypeAnomalies (records : List ThreshRecord) : List Anomaly :=
  (contentTypes records).filterMap (fun ct =>
    if 10 ≤ (groupRecords records ct).length ∧
        accuracyRate (groupRecords records ct) < 7/10 then
      some { type := .CONTENT_TYPE_LOW_ACCURACY
             severity := if accuracyRate (groupRecords records ct) < 1/2
                         then .HIGH else .MEDIUM
             contentType := some ct
             count := some (groupRecords records ct).length
             value := some (accuracyRate (groupRecords records ct))
             affectedWorkers := none }
    else none)

/-- `response_time_anomalies['worker_id'].nunique()`. -/
def nuniqueWorkers (records : List ThreshRecord) : ℕ :=
  ((records.map (·.worker_id)).dedup).length

/-- `_detect_anomalies(metrics_data, sensitivity)`.

`pd.DataFrame([])` is a frame with no columns, so on an empty batch the first
column access `df['response_time_ms']` raises a `KeyError`; modelled as an
error.  On a nonempty batch the function never raises: it appends the
response-time anomaly (if any records exceed the upper threshold), the global
low-accuracy anomaly (if accuracy < 0.75) and the per-content-type anomalies. -/
noncomputable def detectAnomaliesThresh (records : List ThreshRecord)
    (sensitivity : String) : Except String (List Anomaly) :=
  if records.isEmpty then
    .error "KeyError: response_time_ms"
  else
    let sigma := sigmaThreshold sensitivity
    let flagged := responseTimeFlagged records sigma
    let rtAnoms : List Anomaly :=
      if flagged.isEmpty then []
      else [{ type := .HIGH_RESPONSE_TIME
              severity := .MEDIUM
              contentType := none
              count := some flagged.length
              value := none
              affectedWorkers := some (nuniqueWorkers flagged) }]
    let acc := accuracyRate records
    let accAnoms : List Anomaly :=
      if acc < 3/4 then
        [{ type := .LOW_ACCURACY
           severity := if acc < 3/5 then .HIGH else .MEDIUM
           contentType := none
           count := none
           value := some acc
           affectedWorkers := none }]
      else []
    .ok (rtAnoms ++ accAnoms ++ contentTypeAnomalies records)

/-- The structured result of `lambda_handler` (message strings elided,
the fields the claims speak about are kept). -/
structure HandlerResult where
  statusCode : ℕ
  anomaliesDetected : Option ℕ
  isError : Bool
  deriving DecidableEq, Repr

/-- `lambda_handler` of the threshold detector, with the metrics batch supplied
explicitly (the external metrics store is a collaborator).  `if not
metrics_data` short-circuits to a success with `anomaliesDetected = 0`;
otherwise `_detect_anomalies` runs and any exception becomes a 500. -/
noncomputable def lambdaHandlerThresh (metrics : List ThreshRecord)
    (sensitivity : String) : HandlerResult :=
  if metrics.isEmpty then
    { statusCode := 200, anomaliesDetected := some 0, isError := false }
  else
    match detectAnomaliesThresh metrics sensitivity with
    | .ok anomalies =>
        { statusCode := 200, anomaliesDetected := some anomalies.length, isError := false }
    | .error _ =>
        { statusCode := 500, anomaliesDetected := none, isError := true }

/-! ## Helper lemmas about the threshold detector -/

/-- The mean of a nonempty constant column is that constant. -/
lemma qMean_const (xs : List ℚ) (c : ℚ) (hne : xs ≠ []) (h : ∀ x ∈ xs, x = c) :
    qMean xs = c := by
  have hsum : xs.sum = (xs.length : ℚ) * c := by
    induction xs with
    | nil => simp
    | cons y ys ih =>
        have hy : y = c := h y (List.mem_cons_self y ys)
        by_cases hys : ys = []
        · simp [hys, hy]
        · have := ih hys (fun x hx => h x (List.mem_cons_of_mem y hx))
          simp [this, hy]
          ring
  have hl : (xs.length : ℚ) ≠ 0 := by
    simpa using (fun hzero => hne (List.length_eq_zero.mp hzero))
  simp [qMean, hsum]
  field_simp

/-- The sample variance of a constant column is NaN (single sample) or zero. -/
lemma sampleVarQ_const (xs : List ℚ) (c : ℚ) (h : ∀ x ∈ xs, x = c) :
    sampleVarQ xs = none ∨ sampleVarQ xs = some 0 := by
  by_cases hlen : xs.length ≤ 1
  · left; simp [sampleVarQ, hlen]
  · right
    have hne : xs ≠ [] := by
      intro hx; apply hlen; simp [hx]
    have hm : qMean xs = c := qMean_const xs c hne h
    have hz : (xs.map (fun x => (x - qMean xs) ^ 2)).sum = 0 := by
      apply List.sum_eq_zero
      intro y hy
      rcases List.mem_map.mp hy with ⟨x, hx, rfl⟩
      simp [hm, h x hx]
    simp [sampleVarQ, hlen, hz]

/-- When every response time equals `c`, the response-time filter selects
nothing: the standard deviation is NaN (no record selected) or zero, in which
case the upper threshold is exactly `c` and no record strictly exceeds it. -/
lemma responseTimeFlagged_const (records : List ThreshRecord) (c sigma : ℚ)
    (h : ∀ r ∈ records, r.response_time_ms = c) :
    responseTimeFlagged records sigma = [] := by
  have hx : ∀ x ∈ rtValues records, x = c := by
    intro x hxm
    rcases List.mem_map.mp hxm with ⟨r, hr, rfl⟩
    exact h r hr
  rcases sampleVarQ_const (rtValues records) c hx with h0 | h0
  · simp [responseTimeFlagged, h0]
  · have hlen : ¬ (rtValues records).length ≤ 1 := by
      intro hle
      simp [sampleVarQ, hle] at h0
    have hne : rtValues records ≠ [] := by
      intro hx0; apply hlen; simp [hx0]
    have hm : qMean (rtValues records) = c := qMean_const _ c hne hx
    simp only [responseTimeFlagged, h0]
    apply List.filter_eq_nil_iff.mpr
    intro r hr
    simp only [decide_eq_true_eq, hm, h r hr]
    push_cast
    simp [Real.sqrt_zero]

/-! ## Claim C3 — empty batch handling -/

/-- C3 (counterexample): contrary to the claim, `_detect_anomalies` on an empty
batch does not return an empty anomaly list: `pd.DataFrame([])` has no columns,
so the access to the `response_time_ms` column raises, modelled as an error
result. -/
theorem detect_on_empty_batch_raises :
    detectAnomaliesThresh [] "medium" = .error "KeyError: response_time_ms" := rfl

/-- C3 (amended): for every empty metrics batch the Lambda invocation
short-circuits before calling `_detect_anomalies` and reports success with
`anomaliesDetected = 0`, for every sensitivity string. -/
theorem empty_batch_handler_success (sensitivity : String) :
    lambdaHandlerThresh [] sensitivity =
      { statusCode := 200, anomaliesDetected := some 0, isError := false } := rfl

/-! ## Claim C6 — sigma-threshold monotonicity -/

/-- C6: for the response-time check, a looser sigma never flags more records
than a stricter one on the same batch: if `s1 ≤ s2` then the number of records
exceeding `mean + s2·std` is at most the number exceeding `mean + s1·std`. -/
theorem response_time_threshold_monotone (records : List ThreshRecord)
    (s1 s2 : ℚ) (h : s1 ≤ s2) :
    (responseTimeFlagged records s2).length ≤ (responseTimeFlagged records s1).length := by
  unfold responseTimeFlagged
  cases hv : sampleVarQ (rtValues records) with
  | none => simp
  | some v =>
      simp only
      apply List.Sublist.length_le
      apply List.monotone_filter_right
      intro r hr
      simp only [decide_eq_true_eq] at hr ⊢
      refine lt_of_le_of_lt ?_ hr
      have hs : (s1 : ℝ) * Real.sqrt (v : ℝ) ≤ (s2 : ℝ) * Real.sqrt (v : ℝ) :=
        mul_le_mul_of_nonneg_right (by exact_mod_cast h) (Real.sqrt_nonneg _)
      linarith

/-- C6 (witness): the monotonicity theorem applied to a concrete two-record
batch with the sigma thresholds of the `high` (2.0) and `low` (3.0)
sensitivities. -/
theorem response_time_threshold_monotone_witness :
    (2 : ℚ) ≤ 3 ∧
      (responseTimeFlagged
          [{ task_id := "t1", worker_id := "w1", content_type := "text",
             verification_method := "human", confidence_score := 9/10,
             response_time_ms := 100, is_accurate := true, timestamp := 0 },
           { task_id := "t2", worker_id := "w2", content_type := "text",
             verification_method := "human", confidence_score := 9/10,
             response_time_ms := 9000, is_accurate := true, timestamp := 1 }] 3).length ≤
      (responseTimeFlagged
          [{ task_id := "t1", worker_id := "w1", content_type := "text",
             verification_method := "human", confidence_score := 9/10,
             response_time_ms := 100, is_accurate := true, timestamp := 0 },
           { task_id := "t2", worker_id := "w2", content_type := "text",
             verification_method := "human", confidence_score := 9/10,
             response_time_ms := 9000, is_accurate := true, timestamp := 1 }] 2).length :=
  ⟨by norm_num, response_time_threshold_monotone _ 2 3 (by norm_num)⟩

/-! ## Claim C10 — constant response times are never flagged -/

/-- C10: for every nonempty batch in which all `response_time_ms` values are
equal (including a single-record batch, where the sample standard deviation is
NaN), `_detect_anomalies` raises no numeric exception and emits no
`HIGH_RESPONSE_TIME` anomaly. -/
theorem constant_response_times_no_anomaly (records : List ThreshRecord)
    (c : ℚ) (sensitivity : String) (hne : records ≠ [])
    (hconst : ∀ r ∈ records, r.response_time_ms = c) :
    ∃ anomalies, detectAnomaliesThresh records sensitivity = .ok anomalies ∧
      ∀ a ∈ anomalies, a.type ≠ AnomalyType.HIGH_RESPONSE_TIME := by
  have hflag : responseTimeFlagged records (sigmaThreshold sensitivity) = [] :=
    responseTimeFlagged_const records c (sigmaThreshold sensitivity) hconst
  have hempty : records.isEmpty = false := by
    cases records with
    | nil => exact absurd rfl hne
    | cons r rs => rfl
  have hdet : detectAnomaliesThresh records sensitivity =
      .ok ((if accuracyRate records < 3/4 then
              [{ type := AnomalyType.LOW_ACCURACY,
                 severity := if accuracyRate records < 3/5 then Severity.HIGH
                             else Severity.MEDIUM,
                 contentType := none, count := none,
                 value := some (accuracyRate records),
                 affectedWorkers := none }]
            else []) ++ contentTypeAnomalies records) := by
    simp only [detectAnomaliesThresh, hempty, Bool.false_eq_true, if_false, hflag,
      List.isEmpty_nil, if_true, List.nil_append]
  refine ⟨_, hdet, ?_⟩
  intro a ha
  rcases List.mem_append.mp ha with hmem | hmem
  · -- the accuracy anomaly, if emitted, has type LOW_ACCURACY
    by_cases hacc : accuracyRate records < 3/4 <;> simp [hacc] at hmem
    rcases hmem with rfl
    simp
  · -- per-content-type anomalies all have type CONTENT_TYPE_LOW_ACCURACY
    rcases List.mem_filterMap.mp hmem with ⟨ct, _, hsome⟩
    by_cases hcond : 10 ≤ (groupRecords records ct).length ∧
        accuracyRate (groupRecords records ct) < 7/10 <;>
      simp [hcond] at hsome
    rcases hsome with rfl
    simp

/-- C10 (witness): the theorem applied to a concrete two-record batch whose
response times both equal 500. -/
theorem constant_response_times_no_anomaly_witness :
    ∃ anomalies,
      detectAnomaliesThresh
          [{ task_id := "t1", worker_id := "w1", content_type := "text",
             verification_method := "human", confidence_score := 9/10,
             response_time_ms := 500, is_accurate := true, timestamp := 0 },
           { task_id := "t2", worker_id := "w2", content_type := "image",
             verification_method := "ai", confidence_score := 8/10,
             response_time_ms := 500, is_accurate := false, timestamp := 1 }]
          "high" = .ok anomalies ∧
      ∀ a ∈ anomalies, a.type ≠ AnomalyType.HIGH_RESPONSE_TIME :=
  constant_response_times_no_anomaly _ 500 "high" (by simp) (by decide)

/-! ## Claim C7 — per-content-type accuracy check -/

/-- C7: the per-content-type check emits a `CONTENT_TYPE_LOW_ACCURACY` anomaly
for a content type `ct` exactly when its group has at least 10 samples and mean
accuracy below 0.7; every such anomaly carries severity `HIGH` when the group
mean accuracy is below 0.5 and `MEDIUM` otherwise.  In particular a group with
fewer than 10 samples is never flagged. -/
theorem content_type_low_accuracy_exact (records : List ThreshRecord) (ct : String) :
    ((∃ a ∈ contentTypeAnomalies records, a.contentType = some ct) ↔
      (10 ≤ (groupRecords records ct).length ∧
        accuracyRate (groupRecords records ct) < 7/10)) ∧
    (∀ a ∈ contentTypeAnomalies records, a.contentType = some ct →
      a.type = AnomalyType.CONTENT_TYPE_LOW_ACCURACY ∧
      a.severity = (if accuracyRate (groupRecords records ct) < 1/2
                    then Severity.HIGH else Severity.MEDIUM) ∧
      a.count = some (groupRecords records ct).length) := by
  constructor
  · constructor
    · rintro ⟨a, ha, hct⟩
      rcases List.mem_filterMap.mp ha with ⟨ct', _, hsome⟩
      by_cases hcond : 10 ≤ (groupRecords records ct').length ∧
          accuracyRate (groupRecords records ct') < 7/10
      · rw [if_pos hcond] at hsome
        obtain rfl := Option.some.inj hsome
        simp only at hct
        rcases Option.some.inj hct with rfl
        exact hcond
      · rw [if_neg hcond] at hsome
        exact absurd hsome (by simp)
    · rintro ⟨hcount, hacc⟩
      have hg : groupRecords records ct ≠ [] := by
        intro hnil
        rw [hnil] at hcount
        simp at hcount
      obtain ⟨r, hr⟩ := List.exists_mem_of_ne_nil _ hg
      have hrmem : r ∈ records := (List.mem_filter.mp hr).1
      have hrct : r.content_type = ct := by
        have := (List.mem_filter.mp hr).2
        simpa using this
      have hmemct : ct ∈ contentTypes records := by
        apply List.mem_dedup.mpr
        exact List.mem_map.mpr ⟨r, hrmem, hrct⟩
      refine ⟨{ type := AnomalyType.CONTENT_TYPE_LOW_ACCURACY,
                severity := if accuracyRate (groupRecords records ct) < 1/2
                            then Severity.HIGH else Severity.MEDIUM,
                contentType := some ct,
                count := some (groupRecords records ct).length,
                value := some (accuracyRate (groupRecords records ct)),
                affectedWorkers := none },
              List.mem_filterMap.mpr ⟨ct, hmemct, ?_⟩, rfl⟩
      rw [if_pos ⟨hcount, hacc⟩]
  · intro a ha hct
    rcases List.mem_filterMap.mp ha with ⟨ct', _, hsome⟩
    by_cases hcond : 10 ≤ (groupRecords records ct').length ∧
        accuracyRate (groupRecords records ct') < 7/10
    · rw [if_pos hcond] at hsome
      obtain rfl := Option.some.inj hsome
      simp only at hct
      rcases Option.some.inj hct with rfl
      simp
    · rw [if_neg hcond] at hsome
      exact absurd hsome (by simp)

/-- A metric record with the given ids, content type, accuracy flag and
response time (used to build concrete batches). -/
def sampleRecord (task worker ct : String) (acc : Bool) (rt : ℚ) : ThreshRecord :=
  { task_id := task, worker_id := worker, content_type := ct,
    verification_method := "human", confidence_score := 9/10,
    response_time_ms := rt, is_accurate := acc, timestamp := 0 }

/-- A concrete batch with ten `text` records of which four are accurate
(40% accuracy, mirroring the spec's example group). -/
def ctBatch : List ThreshRecord :=
  (List.replicate 6 (sampleRecord "t" "w1" "text" false 500)) ++
  (List.replicate 4 (sampleRecord "t" "w2" "text" true 500))

/-- C7 (witness): the characterization applied to the concrete ten-record
`text` group at 40% accuracy, which must be flagged. -/
theorem content_type_low_accuracy_exact_witness :
    ∃ a ∈ contentTypeAnomalies ctBatch, a.contentType = some "text" :=
  (content_type_low_accuracy_exact ctBatch "text").1.mpr
    ⟨by decide, by norm_num [accuracyRate, qMean, groupRecords, ctBatch, sampleRecord]⟩

/-! ## Model-based anomaly detector (src/analytics/ml/anomaly_detector.py)

The `AnomalyDetector` class holds a `StandardScaler` and an `IsolationForest`.
The scaler is embedded exactly (per-column mean and population variance,
standardization divides by the square root of the variance, a zero variance
is replaced by a unit scale as sklearn's `_handle_zeros_in_scale` does).  The
isolation forest itself is an external library ensemble: it is modelled as an
opaque deterministic algorithm (`random_state=42` is fixed in the source, so
fitting is a function of the training matrix), acting row-wise on the feature
matrix as sklearn's `fit` / `predict` / `score_samples` contract specifies.
No claim depends on the forest's internals. -/

/-- One row of the verification data frame consumed by `AnomalyDetector`
(its `feature_columns` plus `is_accurate`, from which `accuracy_rate` is
derived, and `timestamp` used when reporting). -/
structure MLRecord where
  response_time_ms : ℚ
  confidence_score : ℚ
  cost : ℚ
  is_accurate : Bool
  timestamp : ℚ
  deriving DecidableEq, Repr

/-- A pandas DataFrame as the detector sees it: the original records plus the
derived `accuracy_rate` column once `preprocess_data` has assigned it
(`none` when absent; per-row `Option ℚ` models NaN entries of the column). -/
structure MLFrame where
  records : List MLRecord
  accuracy_rate : Option (List (Option ℚ))
  deriving DecidableEq, Repr

/-- `Series.rolling(window=10).mean()`: entry `i` is the mean of entries
`i-9 .. i`, NaN (`none`) for the first nine positions. -/
def rollingMean10 (xs : List ℚ) : List (Option ℚ) :=
  (List.range xs.length).map (fun i =>
    if 9 ≤ i then some (qMean ((xs.take (i + 1)).drop (i - 9))) else none)

/-- `df['accuracy_rate'] = df['is_accurate'].rolling(window=10).mean()` —
the in-place column assignment on the caller's frame. -/
def addAccuracyColumn (f : MLFrame) : MLFrame :=
  { f with
    accuracy_rate :=
      some (rollingMean10 (f.records.map (fun r => if r.is_accurate then 1 else 0))) }

/-- `df.dropna()`: the rows that survive, paired with their (non-NaN)
`accuracy_rate` value.  Rows whose `accuracy_rate` entry is NaN — the first
nine of the batch — are dropped; a frame without the column keeps nothing to
pair, but `preprocess_data` always assigns the column first. -/
def keptRows (f : MLFrame) : List (MLRecord × ℚ) :=
  match f.accuracy_rate with
  | none => []
  | some col => (f.records.zip col).filterMap (fun p => p.2.map (fun a => (p.1, a)))

/-- `df[self.feature_columns]` after `dropna`: one row per surviving record,
columns `[response_time_ms, confidence_score, cost, accuracy_rate]`. -/
def featureRows (f : MLFrame) : List (List ℚ) :=
  (keptRows f).map (fun p =>
    [p.1.response_time_ms, p.1.confidence_score, p.1.cost, p.2])

/-- The state `StandardScaler.fit` stores: per-column mean and (population,
ddof=0) variance. -/
structure FittedScaler where
  mean : List ℚ
  var : List ℚ
  deriving DecidableEq, Repr

/-- Population variance of a column (sklearn `StandardScaler` uses ddof=0). -/
def popVarQ (xs : List ℚ) : ℚ :=
  (xs.map (fun x => (x - qMean xs) ^ 2)).sum / (xs.length : ℚ)

/-- The columns of the `(n_samples, n_features)` feature matrix (every row
built by `featureRows` has the same length, that of the header row). -/
def matrixColumns (rows : List (List ℚ)) : List (List ℚ) :=
  (List.range (rows.headD []).length).map (fun j => rows.map (fun r => r.getD j 0))

/-- `StandardScaler.fit` on a feature matrix: sklearn validates that at least
one sample is present and raises a `ValueError` otherwise; otherwise it stores
each column's mean and variance. -/
def scalerFit (rows : List (List ℚ)) : Except String FittedScaler :=
  if rows = [] then
    .error "ValueError: 0 samples"
  else
    .ok { mean := (matrixColumns rows).map qMean, var := (matrixColumns rows).map popVarQ }

/-- The per-column scale sklearn divides by: the square root of the variance,
with zero variance replaced by 1 (`_handle_zeros_in_scale`). -/
noncomputable def scaleOf (v : ℚ) : ℝ :=
  if v = 0 then 1 else Real.sqrt (v : ℝ)

/-- `StandardScaler.transform` of one row: `(x - mean) / scale` per column. -/
noncomputable def scalerTransform (st : FittedScaler) (row : List ℚ) : List ℝ :=
  (row.zip (st.mean.zip st.var)).map (fun p =>
    ((p.1 : ℝ) - (p.2.1 : ℝ)) / scaleOf p.2.2)

/-- The sklearn `IsolationForest` as an opaque deterministic algorithm over an
opaque type `F` of fitted forests: `fit` is a function of the training matrix
(the source pins `random_state=42`), `predictRow` is whether `predict` returns
`-1` for a row, and `scoreRow` is `score_samples` for a row; `predict` and
`score_samples` act row-wise on the matrix. -/
structure ForestAlgo (F : Type) where
  fit : List (List ℝ) → F
  predictRow : F → List ℝ → Bool
  scoreRow : F → List ℝ → ℝ

/-- The mutable attributes of an `AnomalyDetector` instance: `self.scaler`
(`none` = freshly constructed, unfitted) and `self.model` (`none` = the
unfitted `IsolationForest` built in `__init__`). -/
structure DetectorState (F : Type) where
  scaler : Option FittedScaler
  model : Option F
  deriving DecidableEq, Repr

/-- `AnomalyDetector()`: fresh scaler, unfitted forest. -/
def freshDetector (F : Type) : DetectorState F := { scaler := none, model := none }

/-- `AnomalyDetector.preprocess_data(df)`.  Returns the updated detector state
(`fit_transform` re-fits `self.scaler` on THIS frame's surviving rows), the
caller's frame as mutated by the `accuracy_rate` column assignment, and the
scaled feature matrix (or the `ValueError` sklearn raises when no row
survives, in which case `self.scaler` keeps its previous state). -/
noncomputable def preprocessData {F : Type} (st : DetectorState F) (f : MLFrame) :
    DetectorState F × MLFrame × Except String (List (List ℝ)) :=
  match scalerFit (featureRows (addAccuracyColumn f)) with
  | .error e => (st, addAccuracyColumn f, .error e)
  | .ok stats =>
      ({ st with scaler := some stats }, addAccuracyColumn f,
        .ok ((featureRows (addAccuracyColumn f)).map (scalerTransform stats)))

/-- `AnomalyDetector.train(data)`: preprocess (fitting the scaler), then fit
the forest on the scaled features.  A preprocessing exception propagates and
leaves the model unfitted. -/
noncomputable def trainDetector {F : Type} (A : ForestAlgo F) (st : DetectorState F)
    (data : MLFrame) : Except String (DetectorState F × MLFrame) :=
  match preprocessData st data with
  | (_, _, .error e) => .error e
  | (st', f', .ok feats) => .ok ({ st' with model := some (A.fit feats) }, f')

/-- `AnomalyDetector.detect_anomalies(data)`: preprocess (again re-fitting the
scaler on the scoring frame), then `predict` / `score_samples` row-wise.
`predictions == -1` becomes the boolean flag list.  An unfitted forest raises
sklearn's `NotFittedError`. -/
noncomputable def detectAnomaliesML {F : Type} (A : ForestAlgo F) (st : DetectorState F)
    (data : MLFrame) :
    DetectorState F × MLFrame × Except String (List Bool × List ℝ) :=
  match preprocessData st data with
  | (st', f', .error e) => (st', f', .error e)
  | (st', f', .ok feats) =>
      match st'.model with
      | none => (st', f', .error "NotFittedError")
      | some m =>
          (st', f', .ok (feats.map (fun row => A.predictRow m row),
                         feats.map (fun row => A.scoreRow m row)))

/-- `train_anomaly_detector(data_path, ...)`: build a fresh detector, train it,
and persist `detector.model` — and only the model, the fitted scaler is not
part of the artifact — to the blob store (the store and `joblib` serialization
are faithful external collaborators, so the artifact is the fitted forest
value itself). -/
noncomputable def trainAnomalyDetectorArtifact {F : Type} (A : ForestAlgo F)
    (data : MLFrame) : Except String F :=
  match trainDetector A (freshDetector F) data with
  | .error e => .error e
  | .ok (st, _) =>
      match st.model with
      | some m => .ok m
      | none => .error "NotFittedError"

/-- The scoring path of `lambda_handler`: a fresh `AnomalyDetector()` whose
`model` attribute is replaced by the loaded artifact (its scaler is a fresh,
unfitted `StandardScaler`), then `detect_anomalies` on the request data. -/
noncomputable def scoreWithLoadedModel {F : Type} (A : ForestAlgo F) (artifact : F)
    (data : MLFrame) : Except String (List Bool × List ℝ) :=
  (detectAnomaliesML A { scaler := none, model := some artifact } data).2.2

/-- Train → save → load → score: the artifact produced by
`train_anomaly_detector` fed to the handler's scoring path. -/
noncomputable def roundTripResult {F : Type} (A : ForestAlgo F) (trainData scoreData : MLFrame) :
    Except String (List Bool × List ℝ) :=
  match trainAnomalyDetectorArtifact A trainData with
  | .error e => .error e
  | .ok m => scoreWithLoadedModel A m scoreData

/-- Train → score on the same detector instance, without the save/load
round-trip. -/
noncomputable def directResult {F : Type} (A : ForestAlgo F) (trainData scoreData : MLFrame) :
    Except String (List Bool × List ℝ) :=
  match trainDetector A (freshDetector F) trainData with
  | .error e => .error e
  | .ok (st, _) => (detectAnomaliesML A st scoreData).2.2

/-! ## Helper lemmas about the model-based detector -/

/-- The frame component returned by `preprocess_data` is always the input frame
with the `accuracy_rate` column assigned, whatever the detector state. -/
lemma preprocessData_frame {F : Type} (A : DetectorState F) (f : MLFrame) :
    (preprocessData A f).2.1 = addAccuracyColumn f := by
  unfold preprocessData
  cases h : scalerFit (featureRows (addAccuracyColumn f)) <;> simp [h]

/-- `preprocess_data` never touches `self.model`. -/
lemma preprocessData_model {F : Type} (st : DetectorState F) (f : MLFrame) :
    (preprocessData st f).1.model = st.model := by
  unfold preprocessData
  cases h : scalerFit (featureRows (addAccuracyColumn f)) <;> simp [h]

/-- The scaled features returned by `preprocess_data` do not depend on the
incoming detector state: `fit_transform` re-fits the scaler on this frame. -/
lemma preprocessData_result_state_free {F : Type} (st st' : DetectorState F) (f : MLFrame) :
    (preprocessData st f).2.2 = (preprocessData st' f).2.2 := by
  unfold preprocessData
  cases h : scalerFit (featureRows (addAccuracyColumn f)) <;> simp [h]

/-- The flags/scores produced by `detect_anomalies` depend only on the fitted
forest and the scoring frame, never on the scaler state the detector carries
in: the scaler is re-fitted inside `preprocess_data`. -/
lemma detectML_result_scaler_irrelevant {F : Type} (A : ForestAlgo F)
    (sc₁ sc₂ : Option FittedScaler) (mo : Option F) (f : MLFrame) :
    (detectAnomaliesML A ⟨sc₁, mo⟩ f).2.2 = (detectAnomaliesML A ⟨sc₂, mo⟩ f).2.2 := by
  unfold detectAnomaliesML preprocessData
  cases h : scalerFit (featureRows (addAccuracyColumn f)) with
  | error e => simp [h]
  | ok stats => cases mo <;> simp [h]

/-- The frame component returned by `detect_anomalies` is the input frame with
the `accuracy_rate` column assigned. -/
lemma detectML_frame {F : Type} (A : ForestAlgo F) (st : DetectorState F) (f : MLFrame) :
    (detectAnomaliesML A st f).2.1 = addAccuracyColumn f := by
  unfold detectAnomaliesML
  have hf := preprocessData_frame st f
  rcases hp : preprocessData st f with ⟨st', f', res⟩
  rw [hp] at hf
  cases res with
  | error e => simpa using hf
  | ok feats => cases hm : st'.model <;> simpa [hm] using hf

/-! ## Claim C5 — train/save/load/score round-trip -/

/-- C5: for every training batch and every scoring batch, training, saving the
artifact, loading it into a fresh detector and scoring produces exactly the
same flags and scores as training and scoring on the same detector instance.
(The save/load path carries only the fitted forest — the artifact holds no
scaler — yet the results coincide because `detect_anomalies` re-fits the
scaler on the scoring batch in both paths.) -/
theorem round_trip_equals_direct {F : Type} (A : ForestAlgo F)
    (trainData scoreData : MLFrame) :
    roundTripResult A trainData scoreData = directResult A trainData scoreData := by
  unfold roundTripResult directResult trainAnomalyDetectorArtifact trainDetector
  rcases hp : preprocessData (freshDetector F) trainData with ⟨⟨sc', mo'⟩, f', res⟩
  cases res with
  | error e => rfl
  | ok feats =>
      show scoreWithLoadedModel A (A.fit feats) scoreData = _
      unfold scoreWithLoadedModel
      exact detectML_result_scaler_irrelevant A none sc' (some (A.fit feats)) scoreData

/-! ## Claim C9 — input mutation -/

/-- A trivial concrete forest algorithm over `Unit`, used to evaluate the
pipeline at concrete inputs. -/
def forestConst : ForestAlgo Unit :=
  { fit := fun _ => (), predictRow := fun _ _ => false, scoreRow := fun _ _ => 0 }

/-- An `MLRecord` with the given response time (constant other columns). -/
def mlRec (rt : ℚ) : MLRecord :=
  { response_time_ms := rt, confidence_score := 1/2, cost := 1,
    is_accurate := true, timestamp := 0 }

/-- A frame holding a single record, without an `accuracy_rate` column. -/
def oneRecordFrame : MLFrame := { records := [mlRec 100], accuracy_rate := none }

/-- C9 (counterexample): the model-based detector mutates its input: the
caller's frame after `detect_anomalies` differs from the frame passed in —
`preprocess_data`'s column assignment `df['accuracy_rate'] = ...` wrote a new
column onto it. -/
theorem detect_mutates_caller_frame :
    (detectAnomaliesML forestConst (freshDetector Unit) oneRecordFrame).2.1 ≠
      oneRecordFrame := by
  rw [detectML_frame]
  simp [addAccuracyColumn, oneRecordFrame, rollingMean10, mlRec]

/-- C9 (amended): neither detector changes any field of any input record — the
threshold detector is a pure function of the record list, and the model-based
detector's output frame keeps every original record and column value — but the
model-based preprocessing does mutate the caller's frame by writing the derived
`accuracy_rate` column onto it. -/
theorem detect_preserves_record_fields {F : Type} (A : ForestAlgo F)
    (st : DetectorState F) (f : MLFrame) :
    (detectAnomaliesML A st f).2.1 = addAccuracyColumn f ∧
    ((detectAnomaliesML A st f).2.1).records = f.records :=
  ⟨detectML_frame A st f, by rw [detectML_frame]; rfl⟩

/-! ## Claim C1 — scaler statistics used at inference -/

/-- After a successful `detect_anomalies`, `self.scaler` holds the statistics
fitted on THE SCORING FRAME itself (whatever state the detector carried in):
`preprocess_data` standardizes with `fit_transform`, not `transform`. -/
lemma detectML_scaler_state {F : Type} (A : ForestAlgo F) (st : DetectorState F)
    (f : MLFrame) (stats : FittedScaler)
    (h : scalerFit (featureRows (addAccuracyColumn f)) = .ok stats) :
    (detectAnomaliesML A st f).1.scaler = some stats := by
  unfold detectAnomaliesML preprocessData
  rw [h]
  cases hm : st.model <;> simp [hm]

/-- The state and frame a successful `train` produces: scaler statistics from
the training frame, forest fitted on its scaled features. -/
lemma trainDetector_ok {F : Type} (A : ForestAlgo F) (st : DetectorState F)
    (f : MLFrame) (stats : FittedScaler)
    (h : scalerFit (featureRows (addAccuracyColumn f)) = .ok stats) :
    trainDetector A st f =
      .ok ({ scaler := some stats,
             model := some (A.fit
               ((featureRows (addAccuracyColumn f)).map (scalerTransform stats))) },
           addAccuracyColumn f) := by
  unfold trainDetector preprocessData
  rw [h]

/-- An eleven-record training frame (constant columns, response time 100). -/
def tdFrame : MLFrame := { records := List.replicate 11 (mlRec 100), accuracy_rate := none }

/-- An eleven-record scoring frame (constant columns, response time 200). -/
def sdFrame : MLFrame := { records := List.replicate 11 (mlRec 200), accuracy_rate := none }

/-- The scaler statistics `fit` computes on `tdFrame`'s surviving feature rows. -/
lemma scalerFit_tdFrame :
    scalerFit (featureRows (addAccuracyColumn tdFrame)) =
      .ok { mean := [100, 1/2, 1, 1], var := [0, 0, 0, 0] } := by
  norm_num [scalerFit, featureRows, keptRows, addAccuracyColumn, rollingMean10,
    tdFrame, mlRec, qMean, popVarQ, List.replicate, List.range_succ, matrixColumns,
    List.getD, List.filterMap_cons, Option.map_some, Option.map_none]
  exact fun h => absurd h (by simp)

/-- The scaler statistics `fit` computes on `sdFrame`'s surviving feature rows. -/
lemma scalerFit_sdFrame :
    scalerFit (featureRows (addAccuracyColumn sdFrame)) =
      .ok { mean := [200, 1/2, 1, 1], var := [0, 0, 0, 0] } := by
  norm_num [scalerFit, featureRows, keptRows, addAccuracyColumn, rollingMean10,
    sdFrame, mlRec, qMean, popVarQ, List.replicate, List.range_succ, matrixColumns,
    List.getD, List.filterMap_cons, Option.map_some, Option.map_none]
  exact fun h => absurd h (by simp)

/-- C1: contrary to the claim, the standardization applied by
`detect_anomalies` does NOT reuse the training-time statistics: training on
`tdFrame` stores scaler statistics with mean response time 100, yet scoring
`sdFrame` with that trained detector re-fits the scaler on the scoring batch
(mean response time 200) and standardizes with those statistics — the training
statistics are discarded (and the saved artifact contains no scaler at all). -/
theorem scaler_refit_at_inference :
    ∃ stTrained : DetectorState Unit, ∃ fT : MLFrame,
      trainDetector forestConst (freshDetector Unit) tdFrame = .ok (stTrained, fT) ∧
      stTrained.scaler = some { mean := [100, 1/2, 1, 1], var := [0, 0, 0, 0] } ∧
      (detectAnomaliesML forestConst stTrained sdFrame).1.scaler =
        some { mean := [200, 1/2, 1, 1], var := [0, 0, 0, 0] } ∧
      ({ mean := [100, 1/2, 1, 1], var := [0, 0, 0, 0] } : FittedScaler) ≠
        { mean := [200, 1/2, 1, 1], var := [0, 0, 0, 0] } := by
  refine ⟨_, _, trainDetector_ok forestConst (freshDetector Unit) tdFrame _ scalerFit_tdFrame,
    rfl, detectML_scaler_state forestConst _ sdFrame _ scalerFit_sdFrame, ?_⟩
  intro h
  have := congrArg FittedScaler.mean h
  simp at this

/-! ## Claim C4 — rolling-window preprocessing -/

/-- The rolling column has one entry per record. -/
lemma rollingMean10_length (xs : List ℚ) : (rollingMean10 xs).length = xs.length := by
  simp [rollingMean10]

/-- Members of `(List.range n).drop m` are at least `m`. -/
lemma le_of_mem_drop_range {n m i : ℕ} (h : i ∈ (List.range n).drop m) : m ≤ i := by
  rcases List.mem_iff_getElem.mp h with ⟨k, hk, hget⟩
  rw [List.getElem_drop, List.getElem_range] at hget
  omega

/-- The first nine entries of the rolling column are NaN. -/
lemma rollingMean10_take_none (xs : List ℚ) :
    ∀ o ∈ (rollingMean10 xs).take 9, o = none := by
  intro o ho
  rw [rollingMean10, ← List.map_take, List.take_range] at ho
  rcases List.mem_map.mp ho with ⟨i, hi, rfl⟩
  have : i < 9 := lt_of_lt_of_le (List.mem_range.mp hi) (min_le_left _ _)
  simp [Nat.not_le_of_lt this]

/-- Every entry of the rolling column from position nine on is defined. -/
lemma rollingMean10_drop_some (xs : List ℚ) :
    ∀ o ∈ (rollingMean10 xs).drop 9, o ≠ none := by
  intro o ho
  rw [rollingMean10, ← List.map_drop] at ho
  rcases List.mem_map.mp ho with ⟨i, hi, rfl⟩
  have : 9 ≤ i := le_of_mem_drop_range hi
  simp [this]

/-- Dropping the NaN pairs from a zip whose second components are all defined
keeps exactly the first components. -/
lemma map_fst_filterMap_zip {α : Type} (rs : List α) (col : List (Option ℚ))
    (hall : ∀ o ∈ col, o ≠ none) (hlen : rs.length ≤ col.length) :
    ((rs.zip col).filterMap (fun p => p.2.map (fun a => (p.1, a)))).map Prod.fst = rs := by
  induction rs generalizing col with
  | nil => simp
  | cons r rs ih =>
      cases col with
      | nil => simp at hlen
      | cons o os =>
          cases o with
          | none => exact absurd rfl (hall none (List.mem_cons_self _ _))
          | some a =>
              simp only [List.zip_cons_cons, List.filterMap_cons, Option.map_some,
                List.map_cons]
              exact congrArg (r :: ·)
                (ih os (fun o ho => hall o (List.mem_cons_of_mem _ ho)) (by simpa using hlen))

/-- Splitting a zip of two equally long lists at position nine. -/
lemma zip_take_drop_nine {α β : Type} (rs : List α) (col : List β)
    (hcl : col.length = rs.length) :
    rs.zip col = (rs.take 9).zip (col.take 9) ++ (rs.drop 9).zip (col.drop 9) := by
  conv_lhs => rw [← List.take_append_drop 9 rs, ← List.take_append_drop 9 col]
  rw [List.zip_append (by simp [hcl])]

/-- Dropping the NaN pairs from a zip whose second components are all NaN for
the first nine positions and defined afterwards keeps exactly the first
components from position nine on. -/
lemma map_fst_filterMap_zip_drop {α : Type} (rs : List α) (col : List (Option ℚ))
    (hcl : col.length = rs.length)
    (htake : ∀ o ∈ col.take 9, o = none)
    (hdrop : ∀ o ∈ col.drop 9, o ≠ none) :
    ((rs.zip col).filterMap (fun p => p.2.map (fun a => (p.1, a)))).map Prod.fst =
      rs.drop 9 := by
  rw [zip_take_drop_nine rs col hcl, List.filterMap_append, List.map_append]
  have h1 : ((rs.take 9).zip (col.take 9)).filterMap
      (fun p => p.2.map (fun a => (p.1, a))) = [] := by
    apply List.filterMap_eq_nil_iff.mpr
    intro p hp
    rw [htake _ (List.of_mem_zip hp).2]
    rfl
  have h2 : (((rs.drop 9).zip (col.drop 9)).filterMap
      (fun p => p.2.map (fun a => (p.1, a)))).map Prod.fst = rs.drop 9 := by
    apply map_fst_filterMap_zip
    · exact hdrop
    · simp [hcl]
  rw [h1, h2]
  rfl

/-- The records surviving `dropna` after the rolling-window assignment are
exactly the input records with the first `window - 1 = 9` dropped, in order. -/
lemma keptRows_eq_drop (f : MLFrame) :
    (keptRows (addAccuracyColumn f)).map Prod.fst = f.records.drop 9 := by
  have hk : keptRows (addAccuracyColumn f) =
      (f.records.zip
        (rollingMean10 (f.records.map (fun r => if r.is_accurate then 1 else 0)))).filterMap
        (fun p => p.2.map (fun a => (p.1, a))) := rfl
  rw [hk]
  apply map_fst_filterMap_zip_drop
  · rw [rollingMean10_length, List.length_map]
  · exact rollingMean10_take_none _
  · exact rollingMean10_drop_some _

/-- C4 (amended): with window 10, the first nine records of the batch are
dropped before scoring, so a batch of `n ≥ 10` records scores successfully
with exactly `n - 9` flags and `n - 9` scores — in particular a batch of
exactly 10 records produces one flag and one score, not an empty output. -/
theorem window_drop_behavior {F : Type} (A : ForestAlgo F) (st : DetectorState F)
    (f : MLFrame) (m : F) (hm : st.model = some m) (h10 : 10 ≤ f.records.length) :
    ∃ flags scores,
      (detectAnomaliesML A st f).2.2 = .ok (flags, scores) ∧
      flags.length = f.records.length - 9 ∧
      scores.length = f.records.length - 9 ∧
      (keptRows (addAccuracyColumn f)).map Prod.fst = f.records.drop 9 := by
  obtain ⟨sc0, mo0⟩ := st
  simp only at hm
  subst hm
  have hkd := keptRows_eq_drop f
  have hklen : (keptRows (addAccuracyColumn f)).length = f.records.length - 9 := by
    have := congrArg List.length hkd
    simpa using this
  have hfr : (featureRows (addAccuracyColumn f)).length = f.records.length - 9 := by
    simp [featureRows, hklen]
  have hne : featureRows (addAccuracyColumn f) ≠ [] := by
    intro h0
    rw [h0] at hfr
    simp at hfr
    omega
  have hok : scalerFit (featureRows (addAccuracyColumn f)) =
      .ok { mean := (matrixColumns (featureRows (addAccuracyColumn f))).map qMean,
            var := (matrixColumns (featureRows (addAccuracyColumn f))).map popVarQ } := by
    rw [scalerFit, if_neg hne]
  have hres : (detectAnomaliesML A { scaler := sc0, model := some m } f).2.2 =
      .ok (((featureRows (addAccuracyColumn f)).map (scalerTransform
              { mean := (matrixColumns (featureRows (addAccuracyColumn f))).map qMean,
                var := (matrixColumns (featureRows (addAccuracyColumn f))).map popVarQ })).map
              (fun row => A.predictRow m row),
            ((featureRows (addAccuracyColumn f)).map (scalerTransform
              { mean := (matrixColumns (featureRows (addAccuracyColumn f))).map qMean,
                var := (matrixColumns (featureRows (addAccuracyColumn f))).map popVarQ })).map
              (fun row => A.scoreRow m row)) := by
    unfold detectAnomaliesML preprocessData
    rw [hok]
  refine ⟨_, _, hres, ?_, ?_, hkd⟩ <;> simp [hfr]

/-- A five-record scoring frame: too short for any row to survive the rolling
window. -/
def fiveFrame : MLFrame := { records := List.replicate 5 (mlRec 100), accuracy_rate := none }

/-- C4 (counterexample): contrary to the claim, a batch with fewer than
window + 1 records does not yield an empty output: with five records every
rolling-window entry is NaN, `dropna` leaves no row, and sklearn's scaler
raises a `ValueError` on the empty feature matrix — the result is an error,
not an empty flags/scores pair. -/
theorem small_batch_scoring_errors :
    (detectAnomaliesML forestConst { scaler := none, model := some () } fiveFrame).2.2 =
      .error "ValueError: 0 samples" := by
  have h : scalerFit (featureRows (addAccuracyColumn fiveFrame)) =
      .error "ValueError: 0 samples" := by
    norm_num [scalerFit, featureRows, keptRows, addAccuracyColumn, rollingMean10,
      fiveFrame, mlRec, List.replicate, List.range_succ, List.filterMap_cons]
  unfold detectAnomaliesML preprocessData
  rw [h]

/-- C4 (witness): the amended theorem applied to the eleven-record frame:
two rows survive and are scored. -/
theorem window_drop_behavior_witness :
    ∃ flags scores,
      (detectAnomaliesML forestConst { scaler := none, model := some () } tdFrame).2.2 =
        .ok (flags, scores) ∧
      flags.length = tdFrame.records.length - 9 ∧
      scores.length = tdFrame.records.length - 9 ∧
      (keptRows (addAccuracyColumn tdFrame)).map Prod.fst = tdFrame.records.drop 9 :=
  window_drop_behavior forestConst { scaler := none, model := some () } tdFrame ()
    rfl (by decide)

/-! ## Task router (src/analytics/ml/task_router.py)

`TaskRouter` holds a dict of `LabelEncoder`s, a `StandardScaler` and a
`RandomForestClassifier`.  A fitted `LabelEncoder` is its `classes_` list
(sklearn stores the distinct values; their order only determines the integer
codes fed to the opaque classifier and affects none of the stated properties,
so first-occurrence order is used).  The forest classifier — including the
deterministic `train_test_split(random_state=42)` preceding its fit — is an
opaque deterministic algorithm over an opaque type of fitted models, exactly
as the isolation forest is. -/

/-- One row of the router's training frame (`feature_columns` plus the
`best_worker` target column). -/
structure RouteRecord where
  content_type : String
  verification_method : String
  task_complexity : ℚ
  expected_response_time : ℚ
  required_confidence : ℚ
  best_worker : String
  deriving DecidableEq, Repr

/-- The `task_features` dict handed to `predict_worker`. -/
structure TaskFeatures where
  content_type : String
  verification_method : String
  task_complexity : ℚ
  expected_response_time : ℚ
  required_confidence : ℚ
  deriving DecidableEq, Repr

/-- `LabelEncoder.fit` over a column: the distinct values. -/
def labelFit (xs : List String) : List String := xs.dedup

/-- `LabelEncoder.transform` of one value: its integer code, or the
`ValueError` sklearn raises for a label unseen at fit time. -/
def labelTransform (le : List String) (x : String) : Except String ℕ :=
  if x ∈ le then .ok (le.indexOf x)
  else .error ("ValueError: y contains previously unseen labels: " ++ x)

/-- The mutable attributes of a `TaskRouter`: the `label_encoders` dict (one
`Option` per key the code ever reads — NOTE that nothing in the source ever
fits an encoder for the `best_worker` target column), the scaler and the
classifier. -/
structure RouterState (M : Type) where
  le_content : Option (List String)
  le_method : Option (List String)
  le_target : Option (List String)
  scaler : Option FittedScaler
  model : Option M
  deriving DecidableEq, Repr

/-- `TaskRouter()`: empty encoder dict, unfitted scaler and classifier. -/
def freshRouter (M : Type) : RouterState M :=
  { le_content := none, le_method := none, le_target := none,
    scaler := none, model := none }

/-- The sklearn `RandomForestClassifier` pipeline as an opaque deterministic
algorithm: `fit` consumes the encoded/scaled matrix and the raw string targets
(the 80/20 `train_test_split` with `random_state=42` is deterministic and
absorbed into it), `predictProba` maps one encoded/scaled row to the per-class
probability vector. -/
structure RFAlgo (M : Type) where
  fit : List (List ℝ) → List String → M
  predictProba : M → List ℝ → List ℚ

/-- The numeric feature columns of a training row, in `numerical_cols` order. -/
def numericCols (r : RouteRecord) : List ℚ :=
  [r.task_complexity, r.expected_response_time, r.required_confidence]

/-- `TaskRouter.preprocess_data(df)`: label-encode the two categorical columns
(fitting fresh encoders on this frame), scale the numeric columns (fitting the
scaler), and return `(X, y)`.  On an empty frame the first column access
raises (`pd.DataFrame([])` has no columns).  The target encoder is never
fitted. -/
noncomputable def preprocessRouter {M : Type} (st : RouterState M)
    (df : List RouteRecord) :
    RouterState M × Except String (List (List ℝ) × List String) :=
  if df = [] then
    (st, .error "KeyError: content_type")
  else
    match scalerFit (df.map numericCols) with
    | .error e =>
        ({ st with le_content := some (labelFit (df.map (·.content_type))),
                   le_method := some (labelFit (df.map (·.verification_method))) },
         .error e)
    | .ok s =>
        ({ st with le_content := some (labelFit (df.map (·.content_type))),
                   le_method := some (labelFit (df.map (·.verification_method))),
                   scaler := some s },
         .ok (df.map (fun r =>
                ((labelFit (df.map (·.content_type))).indexOf r.content_type : ℝ) ::
                ((labelFit (df.map (·.verification_method))).indexOf r.verification_method : ℝ) ::
                scalerTransform s (numericCols r)),
              df.map (·.best_worker)))

/-- `TaskRouter.train(training_data)`: preprocess, then fit the classifier on
the preprocessed matrix and targets. -/
noncomputable def trainRouter {M : Type} (alg : RFAlgo M) (st : RouterState M)
    (df : List RouteRecord) : Except String (RouterState M) :=
  match preprocessRouter st df with
  | (_, .error e) => .error e
  | (st', .ok (X, y)) => .ok { st' with model := some (alg.fit X y) }

/-- Stable insertion into an ascending (by probability) index list: an index
is placed after every index whose value is less than or equal to its own, as
numpy's insertion sort (used by `argsort` on short arrays) does. -/
def insertIdxAsc (xs : List ℚ) (i : ℕ) : List ℕ → List ℕ
  | [] => [i]
  | j :: rest =>
      if xs.getD j 0 ≤ xs.getD i 0 then j :: insertIdxAsc xs i rest
      else i :: j :: rest

/-- `np.argsort(worker_probs)`: the indices sorted by value ascending, stable
(equal values keep index order). -/
def argsortAsc (xs : List ℚ) : List ℕ :=
  (List.range xs.length).foldl (fun acc i => insertIdxAsc xs i acc) []

/-- `TaskRouter.predict_worker(task_features)`, step for step: encode the two
categorical values with the fitted encoders (a dict access, then a transform
that raises on unseen labels), scale the numeric features with the fitted
scaler, query the classifier for the probability vector, then read
`self.label_encoders[self.target_column].classes_` — a dict access to a key
`preprocess_data` never wrote — and finally rank.  The ranking takes
`np.argsort(probs)[-3:][::-1]` (the last three of the ascending argsort,
reversed) and maps them through the worker-id list. -/
noncomputable def predictWorker {M : Type} (alg : RFAlgo M) (st : RouterState M)
    (tf : TaskFeatures) : Except String (List String) :=
  match st.le_content with
  | none => .error "KeyError: content_type"
  | some ce =>
    match labelTransform ce tf.content_type with
    | .error e => .error e
    | .ok cc =>
      match st.le_method with
      | none => .error "KeyError: verification_method"
      | some me =>
        match labelTransform me tf.verification_method with
        | .error e => .error e
        | .ok vc =>
          match st.scaler with
          | none => .error "NotFittedError: StandardScaler"
          | some s =>
            match st.model with
            | none => .error "NotFittedError: RandomForestClassifier"
            | some m =>
              match st.le_target with
              | none => .error "KeyError: best_worker"
              | some workerIds =>
                .ok ((((argsortAsc (alg.predictProba m
                        ((cc : ℝ) :: (vc : ℝ) ::
                          scalerTransform s
                            [tf.task_complexity, tf.expected_response_time,
                             tf.required_confidence]))).reverse).take 3).map
                    (fun i => workerIds.getD i ""))

/-! ## Claims C2 and C8 — prediction behavior of the trained router -/

/-- Values seen at fit time always transform successfully. -/
lemma labelTransform_fit_ok (col : List String) (x : String) (h : x ∈ col) :
    labelTransform (labelFit col) x = .ok ((labelFit col).indexOf x) := by
  simp [labelTransform, labelFit, List.mem_dedup, h]

/-- The state a successful `train` on a fresh router leaves behind: encoders
for the two categorical feature columns, a fitted scaler, a fitted classifier —
and NO encoder for the `best_worker` target column, which `preprocess_data`
never fits. -/
lemma trainRouter_state {M : Type} (alg : RFAlgo M) (df : List RouteRecord)
    (st : RouterState M) (h : trainRouter alg (freshRouter M) df = .ok st) :
    df ≠ [] ∧
    st.le_content = some (labelFit (df.map (·.content_type))) ∧
    st.le_method = some (labelFit (df.map (·.verification_method))) ∧
    st.le_target = none ∧
    (∃ s, st.scaler = some s) ∧ (∃ m, st.model = some m) := by
  by_cases hdf : df = []
  · subst hdf
    simp [trainRouter, preprocessRouter] at h
  · have hrows : df.map numericCols ≠ [] := by simp [hdf]
    have hfit : scalerFit (df.map numericCols) =
        .ok { mean := (matrixColumns (df.map numericCols)).map qMean,
              var := (matrixColumns (df.map numericCols)).map popVarQ } := by
      rw [scalerFit, if_neg hrows]
    unfold trainRouter preprocessRouter at h
    rw [if_neg hdf, hfit] at h
    obtain rfl := (Except.ok.inj h).symm
    exact ⟨hdf, rfl, rfl, rfl, ⟨_, rfl⟩, ⟨_, rfl⟩⟩

/-- C2: contrary to the claim, `predict_worker` on a trained router never
returns a ranked worker list: for every training set and every prediction
input whose categorical values were seen in training, the lookup
`self.label_encoders[self.target_column]` raises a `KeyError` — no encoder for
`best_worker` was ever fitted — before the return statement is reached. -/
theorem predict_after_train_keyerror {M : Type} (alg : RFAlgo M)
    (df : List RouteRecord) (st : RouterState M)
    (h : trainRouter alg (freshRouter M) df = .ok st) (tf : TaskFeatures)
    (hc : tf.content_type ∈ df.map (·.content_type))
    (hv : tf.verification_method ∈ df.map (·.verification_method)) :
    predictWorker alg st tf = .error "KeyError: best_worker" := by
  obtain ⟨hdf, hce, hme, hte, ⟨s, hs⟩, ⟨m, hm⟩⟩ := trainRouter_state alg df st h
  have hc' : tf.content_type ∈ labelFit (df.map (·.content_type)) :=
    List.mem_dedup.mpr hc
  have hv' : tf.verification_method ∈ labelFit (df.map (·.verification_method)) :=
    List.mem_dedup.mpr hv
  simp [predictWorker, hce, hme, hte, hs, hm, labelTransform, hc', hv']

/-- A trivial concrete classifier algorithm over `Unit`. -/
def rfAlg0 : RFAlgo Unit :=
  { fit := fun _ _ => (), predictProba := fun _ _ => [1/2, 1/2] }

/-- A five-record training set for the router. -/
def routerDf : List RouteRecord :=
  [{ content_type := "text", verification_method := "human", task_complexity := 1,
     expected_response_time := 2, required_confidence := 3, best_worker := "w1" },
   { content_type := "image", verification_method := "ai", task_complexity := 2,
     expected_response_time := 3, required_confidence := 4, best_worker := "w2" },
   { content_type := "text", verification_method := "ai", task_complexity := 3,
     expected_response_time := 4, required_confidence := 5, best_worker := "w1" },
   { content_type := "image", verification_method := "human", task_complexity := 4,
     expected_response_time := 5, required_confidence := 6, best_worker := "w2" },
   { content_type := "text", verification_method := "human", task_complexity := 5,
     expected_response_time := 6, required_confidence := 7, best_worker := "w1" }]

/-- A prediction input whose categorical values were all seen in `routerDf`. -/
def tfSeen : TaskFeatures :=
  { content_type := "text", verification_method := "human", task_complexity := 1,
    expected_response_time := 2, required_confidence := 3 }

/-- C2 (witness): the `KeyError` theorem applied to the concrete five-record
training set and a prediction input with seen categorical values. -/
theorem predict_after_train_keyerror_witness :
    ∃ st, trainRouter rfAlg0 (freshRouter Unit) routerDf = .ok st ∧
      predictWorker rfAlg0 st tfSeen = .error "KeyError: best_worker" := by
  have hdf : routerDf ≠ [] := by simp [routerDf]
  have hrows : routerDf.map numericCols ≠ [] := by simp [routerDf]
  have hfit : scalerFit (routerDf.map numericCols) =
      .ok { mean := (matrixColumns (routerDf.map numericCols)).map qMean,
            var := (matrixColumns (routerDf.map numericCols)).map popVarQ } := by
    rw [scalerFit, if_neg hrows]
  rcases htr : trainRouter rfAlg0 (freshRouter Unit) routerDf with e | st
  · exfalso
    unfold trainRouter preprocessRouter at htr
    rw [if_neg hdf, hfit] at htr
    exact absurd htr (by simp)
  · exact ⟨st, rfl,
      predict_after_train_keyerror rfAlg0 routerDf st htr tfSeen (by decide) (by decide)⟩

/-- C8: an unseen categorical value at prediction time makes `predict_worker`
fail with the encoder's unseen-label error (raised while transforming
`content_type` or `verification_method`) rather than silently mapping the
value to a default code and returning a prediction. -/
theorem unseen_category_raises {M : Type} (alg : RFAlgo M) (st : RouterState M)
    (tf : TaskFeatures) (ce me : List String)
    (hce : st.le_content = some ce) (hme : st.le_method = some me)
    (h : tf.content_type ∉ ce ∨ tf.verification_method ∉ me) :
    ∃ x, predictWorker alg st tf =
        .error ("ValueError: y contains previously unseen labels: " ++ x) ∧
      (x = tf.content_type ∨ x = tf.verification_method) := by
  by_cases hcs : tf.content_type ∈ ce
  · have hvu : tf.verification_method ∉ me := by
      rcases h with h | h
      · exact absurd hcs h
      · exact h
    refine ⟨tf.verification_method, ?_, Or.inr rfl⟩
    simp [predictWorker, hce, hme, labelTransform, hcs, hvu]
  · refine ⟨tf.content_type, ?_, Or.inl rfl⟩
    simp [predictWorker, hce, labelTransform, hcs]

/-- A trained-shape router state whose encoders know `image`/`text` and
`ai`/`human`. -/
def stFitted : RouterState Unit :=
  { le_content := some ["image", "text"], le_method := some ["ai", "human"],
    le_target := none, scaler := some { mean := [1, 2, 3], var := [0, 0, 0] },
    model := some () }

/-- A prediction input with an unseen `content_type`. -/
def tfUnseen : TaskFeatures :=
  { content_type := "video", verification_method := "human", task_complexity := 1,
    expected_response_time := 2, required_confidence := 3 }

/-- C8 (witness): the unseen-label theorem applied to a concrete router state
and an input whose `content_type` (`video`) was never seen. -/
theorem unseen_category_raises_witness :
    ∃ x, predictWorker rfAlg0 stFitted tfUnseen =
        .error ("ValueError: y contains previously unseen labels: " ++ x) ∧
      (x = tfUnseen.content_type ∨ x = tfUnseen.verification_method) :=
  unseen_category_raises rfAlg0 stFitted tfUnseen ["image", "text"] ["ai", "human"]
    rfl rfl (Or.inl (by decide))
